import Mathlib

/-!
Verification of the Mandelbrot explorer sources sdl_draw.c and sdl_draw.cpp.

Both source files are shallowly embedded below.  Conventions of the embedding:

* C doubles and floats are modelled as exact rationals.  All arithmetic the
  sources perform on view state (multiplication, division, subtraction,
  comparison) is carried out exactly, so every algebraic identity proved here
  holds in particular up to floating-point epsilon in the sources.
* SDL Uint32 millisecond timestamps are naturals; the sources' unsigned
  subtraction is modelled by an explicit wrap-around subtraction u32sub.
* The sources compare sqrtf results against nonnegative constants
  (tap distance < 20/200 px, move distance > 5/15 px, pinch distance > 0);
  those comparisons are modelled by the equivalent comparisons of squares.
  The single place a square root's value, not merely a comparison against a
  constant, is used is the pinch zoom ratio currentDist / initialPinchDist in
  the two-finger branch of handleFingerMotion; that branch takes the two
  sqrtf-computed distances as explicit rational inputs.
* The pixel buffer, texture upload, logging and the debug tap marker overlay
  (which is purely visual and never read by the gesture code) are not part of
  the embedded state; everything the gesture handlers read or write is.
-/

namespace SdlDraw

/-- MIN_ZOOM, defined as 0.1 in both sources. -/
def MIN_ZOOM : ℚ := 1 / 10

/-- MAX_ZOOM, defined as 1e14 in both sources. -/
def MAX_ZOOM : ℚ := 10 ^ 14

/-- DOUBLE_TAP_TIME (ms), 800 in both sources. -/
def DOUBLE_TAP_TIME : ℕ := 800

/-- DOUBLE_TAP_DIST (px), 200 in both sources. -/
def DOUBLE_TAP_DIST : ℚ := 200

/-- TAP_DEBOUNCE_TIME (ms), 500 in both sources. -/
def TAP_DEBOUNCE_TIME : ℕ := 500

/-- HOLD_ZOOM_DELAY (ms), 150 in both sources. -/
def HOLD_ZOOM_DELAY : ℕ := 150

/-- HOLD_ZOOM_RATE, 1.16 in both sources. -/
def HOLD_ZOOM_RATE : ℚ := 116 / 100

/-- WHEEL_ZOOM_FACTOR, the literal 1.15 in sdl_draw.c and
Config::WHEEL_ZOOM_FACTOR in sdl_draw.cpp. -/
def WHEEL_ZOOM_FACTOR : ℚ := 115 / 100

/-- CLICK_ZOOM_FACTOR, the literal 1.5 in sdl_draw.c and
Config::CLICK_ZOOM_FACTOR in sdl_draw.cpp. -/
def CLICK_ZOOM_FACTOR : ℚ := 3 / 2

/-- SDL button codes used by the sources: SDL_BUTTON_LEFT. -/
def SDL_BUTTON_LEFT : ℕ := 1

/-- SDL_BUTTON_MIDDLE. -/
def SDL_BUTTON_MIDDLE : ℕ := 2

/-- SDL_BUTTON_RIGHT. -/
def SDL_BUTTON_RIGHT : ℕ := 3

/-- Wrap-around subtraction of SDL Uint32 millisecond timestamps:
the C expression a - b on Uint32 values. -/
def u32sub (a b : ℕ) : ℕ := (a + 2 ^ 32 - b % 2 ^ 32) % 2 ^ 32

/-- Truncation of a rational toward zero, the C cast (int) applied to a
double value. -/
def truncInt (q : ℚ) : ℤ := if q < 0 then -⌊-q⌋ else ⌊q⌋

/-- std::clamp on rationals: std::clamp(v, lo, hi) as defined by the C++
standard, used by sdl_draw.cpp. -/
def stdClampQ (v lo hi : ℚ) : ℚ := if v < lo then lo else if hi < v then hi else v

/-- std::clamp on integers, used by Mandelbrot::getColor in sdl_draw.cpp. -/
def stdClampZ (v lo hi : ℤ) : ℤ := if v < lo then lo else if hi < v then hi else v

/-- The escape-time loop body shared verbatim by mandelbrot (sdl_draw.c,
lines 96-111) and Mandelbrot::iterate (sdl_draw.cpp, lines 58-73): starting
from z = (zr, zi) with the given fuel (remaining allowed iterations), count
the steps of z squared plus c taken while the squared magnitude test
zr2 + zi2 <= 4.0 at the top of the loop passes. -/
def mandelbrotGo (cr ci : ℚ) : ℚ → ℚ → ℕ → ℕ
  | _, _, 0 => 0
  | zr, zi, fuel + 1 =>
    if zr * zr + zi * zi ≤ 4 then
      mandelbrotGo cr ci (zr * zr - zi * zi + cr) (2 * zr * zi + ci) fuel + 1
    else 0

/-- mandelbrot(cr, ci) from sdl_draw.c (the global max_iter passed
explicitly), identical to Mandelbrot::iterate(cr, ci, maxIter) from
sdl_draw.cpp: iteration starts at z = 0 with at most maxIter steps. -/
def mandelbrot (cr ci : ℚ) (maxIter : ℕ) : ℕ := mandelbrotGo cr ci 0 0 maxIter

namespace C

/-- getColor(iter) from sdl_draw.c, lines 114-138, with the global max_iter
passed explicitly.  The channel values are truncated from doubles by the
(int) casts and clamped from above only; the final int-to-unsigned packing of
the (in-range) channels is modelled by Int.toNat followed by shifts and ors,
exactly the source's 0xFF000000 | (r << 16) | (g << 8) | b. -/
def getColor (iter maxIter : ℕ) : ℕ :=
  if iter = maxIter then 0xFF000000
  else
    let t : ℚ := (iter : ℚ) / (maxIter : ℚ)
    let r : ℤ := truncInt (9 * (1 - t) * t * t * t * 255)
    let g : ℤ := truncInt (15 * (1 - t) * (1 - t) * t * t * 255)
    let b : ℤ := truncInt (85 / 10 * (1 - t) * (1 - t) * (1 - t) * t * 255)
    let r2 : ℤ := if r > 255 then 255 else r
    let g2 : ℤ := if g > 255 then 255 else g
    let b2 : ℤ := if b > 255 then 255 else b
    0xFF000000 ||| (r2.toNat <<< 16) ||| (g2.toNat <<< 8) ||| b2.toNat

/-- The mutable globals of sdl_draw.c that the gesture handlers read and
write (lines 32-93), gathered into one record.  renderWidth/renderHeight and
windowWidth/windowHeight are rationals because every use in the handlers is
as a double or float operand.  initialPinchDistSq holds the square of the
source's initialPinchDist (the source stores the sqrtf value; it is only
ever compared against 0 and used as a ratio denominator, see the module
comment). -/
structure CState where
  zoom : ℚ
  center_x : ℚ
  center_y : ℚ
  max_iter : ℕ
  renderWidth : ℚ
  renderHeight : ℚ
  windowWidth : ℚ
  windowHeight : ℚ
  needsRedraw : Bool
  numFingers : ℕ
  finger1_id : ℤ
  finger2_id : ℤ
  finger1_x : ℚ
  finger1_y : ℚ
  finger2_x : ℚ
  finger2_y : ℚ
  initialPinchDistSq : ℚ
  initialZoom : ℚ
  pinchCenterX : ℚ
  pinchCenterY : ℚ
  isPanning : Bool
  lastPanX : ℚ
  lastPanY : ℚ
  initialTapX : ℚ
  initialTapY : ℚ
  lastTapTime : ℕ
  lastTapX : ℚ
  lastTapY : ℚ
  lastZoomTime : ℕ
  mouseButtonHeld : ℕ
  mouseHoldX : ℚ
  mouseHoldY : ℚ
  mouseHoldStartTime : ℕ
  holdZoomActive : Bool
  touchHoldZoomActive : Bool
  touchHoldStartTime : ℕ
  touchHoldX : ℚ
  touchHoldY : ℚ
  mousePanning : Bool
  mousePanLastX : ℚ
  mousePanLastY : ℚ

/-- The initial values of the globals of sdl_draw.c (lines 32-93), with the
800 x 600 initial window size kept by main. -/
def init : CState where
  zoom := 1
  center_x := -1/2
  center_y := 0
  max_iter := 256
  renderWidth := 800
  renderHeight := 600
  windowWidth := 800
  windowHeight := 600
  needsRedraw := true
  numFingers := 0
  finger1_id := 0
  finger2_id := 0
  finger1_x := 0
  finger1_y := 0
  finger2_x := 0
  finger2_y := 0
  initialPinchDistSq := 0
  initialZoom := 1
  pinchCenterX := 0
  pinchCenterY := 0
  isPanning := false
  lastPanX := 0
  lastPanY := 0
  initialTapX := 0
  initialTapY := 0
  lastTapTime := 0
  lastTapX := 0
  lastTapY := 0
  lastZoomTime := 0
  mouseButtonHeld := 0
  mouseHoldX := 0
  mouseHoldY := 0
  mouseHoldStartTime := 0
  holdZoomActive := false
  touchHoldZoomActive := false
  touchHoldStartTime := 0
  touchHoldX := 0
  touchHoldY := 0
  mousePanning := false
  mousePanLastX := 0
  mousePanLastY := 0

/-- handleMouseButtonDown from sdl_draw.c, lines 200-219.  now is the value
SDL_GetTicks() returns during the call. -/
def handleMouseButtonDown (s : CState) (button : ℕ) (x y : ℚ) (now : ℕ) : CState :=
  if button = SDL_BUTTON_MIDDLE then
    { s with mousePanning := true, mousePanLastX := x, mousePanLastY := y,
             mouseButtonHeld := SDL_BUTTON_MIDDLE }
  else if button = SDL_BUTTON_LEFT ∨ button = SDL_BUTTON_RIGHT then
    { s with mouseButtonHeld := button, mouseHoldX := x, mouseHoldY := y,
             mouseHoldStartTime := now, holdZoomActive := false,
             mousePanning := false }
  else s

/-- handleMouseButtonUp from sdl_draw.c, lines 221-269. -/
def handleMouseButtonUp (s : CState) (button : ℕ) (x y : ℚ) : CState :=
  if button = s.mouseButtonHeld then
    if button = SDL_BUTTON_MIDDLE then
      { s with mousePanning := false, mouseButtonHeld := 0 }
    else if s.mousePanning = true then
      { s with mousePanning := false, mouseButtonHeld := 0, holdZoomActive := false }
    else if s.holdZoomActive = false then
      let scale := 4 / (s.renderWidth * s.zoom)
      let worldX := s.center_x + (x - s.renderWidth / 2) * scale
      let worldY := s.center_y + (y - s.renderHeight / 2) * scale
      let newZoom := if button = SDL_BUTTON_LEFT then s.zoom * (3/2)
                     else if button = SDL_BUTTON_RIGHT then s.zoom / (3/2)
                     else s.zoom
      let newScale := 4 / (s.renderWidth * newZoom)
      { s with zoom := newZoom,
               center_x := worldX - (x - s.renderWidth / 2) * newScale,
               center_y := worldY - (y - s.renderHeight / 2) * newScale,
               needsRedraw := true, mouseButtonHeld := 0, holdZoomActive := false }
    else
      { s with mouseButtonHeld := 0, holdZoomActive := false }
  else s

/-- handleMouseMotion from sdl_draw.c, lines 272-307. -/
def handleMouseMotion (s : CState) (x y : ℚ) : CState :=
  if s.mouseButtonHeld = 0 then s
  else
    let s2 :=
      if s.mousePanning = false ∧
         (s.mouseButtonHeld = SDL_BUTTON_LEFT ∨ s.mouseButtonHeld = SDL_BUTTON_RIGHT) ∧
         (|x - s.mouseHoldX| > 10 ∨ |y - s.mouseHoldY| > 10) then
        { s with mousePanning := true, holdZoomActive := false,
                 mousePanLastX := x, mousePanLastY := y }
      else s
    if s2.mousePanning = true then
      let dx := x - s2.mousePanLastX
      let dy := y - s2.mousePanLastY
      let scale := 4 / (s2.renderWidth * s2.zoom)
      { s2 with center_x := s2.center_x - dx * scale,
                center_y := s2.center_y - dy * scale,
                mousePanLastX := x, mousePanLastY := y, needsRedraw := true }
    else s2

/-- updateMouseHoldZoom from sdl_draw.c, lines 310-358.  now is the
SDL_GetTicks() value of this frame and (mouseX, mouseY) the position
SDL_GetMouseState reports. -/
def updateMouseHoldZoom (s : CState) (now : ℕ) (mouseX mouseY : ℚ) : CState :=
  if s.mouseButtonHeld = 0 ∨ s.mousePanning = true then s
  else if s.holdZoomActive = false ∧ u32sub now s.mouseHoldStartTime < HOLD_ZOOM_DELAY then s
  else
    let s2 := { s with holdZoomActive := true }
    let scale := 4 / (s2.renderWidth * s2.zoom)
    let worldX := s2.center_x + (mouseX - s2.renderWidth / 2) * scale
    let worldY := s2.center_y + (mouseY - s2.renderHeight / 2) * scale
    let newZoom :=
      if s2.mouseButtonHeld = SDL_BUTTON_LEFT then
        (if s2.zoom * HOLD_ZOOM_RATE ≤ MAX_ZOOM then s2.zoom * HOLD_ZOOM_RATE else s2.zoom)
      else if s2.mouseButtonHeld = SDL_BUTTON_RIGHT then
        (if s2.zoom / HOLD_ZOOM_RATE ≥ MIN_ZOOM then s2.zoom / HOLD_ZOOM_RATE else s2.zoom)
      else s2.zoom
    let newScale := 4 / (s2.renderWidth * newZoom)
    { s2 with zoom := newZoom,
              center_x := worldX - (mouseX - s2.renderWidth / 2) * newScale,
              center_y := worldY - (mouseY - s2.renderHeight / 2) * newScale,
              needsRedraw := true }

/-- handleMouseWheel from sdl_draw.c, lines 361-384. -/
def handleMouseWheel (s : CState) (wheelY : ℤ) (mouseX mouseY : ℚ) : CState :=
  let scale := 4 / (s.renderWidth * s.zoom)
  let worldX := s.center_x + (mouseX - s.renderWidth / 2) * scale
  let worldY := s.center_y + (mouseY - s.renderHeight / 2) * scale
  let newZoom := if wheelY > 0 then s.zoom * WHEEL_ZOOM_FACTOR
                 else if wheelY < 0 then s.zoom / WHEEL_ZOOM_FACTOR
                 else s.zoom
  let newScale := 4 / (s.renderWidth * newZoom)
  { s with zoom := newZoom,
           center_x := worldX - (mouseX - s.renderWidth / 2) * newScale,
           center_y := worldY - (mouseY - s.renderHeight / 2) * newScale,
           needsRedraw := true }

/-- handleFingerDown from sdl_draw.c, lines 395-448.  The square of
getTouchDistance (sqrtf of the pixel-scaled deltas, lines 387-392) is stored
in initialPinchDistSq. -/
def handleFingerDown (s : CState) (id : ℤ) (x y : ℚ) (now : ℕ) : CState :=
  let nx := if x > 1 ∨ y > 1 then x / s.windowWidth else x
  let ny := if x > 1 ∨ y > 1 then y / s.windowHeight else y
  if s.numFingers = 0 then
    { s with finger1_id := id, finger1_x := nx, finger1_y := ny, numFingers := 1,
             isPanning := false, lastPanX := nx, lastPanY := ny,
             initialTapX := nx, initialTapY := ny,
             touchHoldStartTime := now, touchHoldX := nx, touchHoldY := ny,
             touchHoldZoomActive := false }
  else if s.numFingers = 1 then
    let distSq := ((nx - s.finger1_x) * s.windowWidth) ^ 2 +
                  ((ny - s.finger1_y) * s.windowHeight) ^ 2
    let centerPixelX := (s.finger1_x + nx) / 2 * s.renderWidth
    let centerPixelY := (s.finger1_y + ny) / 2 * s.renderHeight
    let scale := 4 / (s.renderWidth * s.zoom)
    { s with finger2_id := id, finger2_x := nx, finger2_y := ny, numFingers := 2,
             isPanning := false,
             initialPinchDistSq := distSq,
             initialZoom := s.zoom,
             pinchCenterX := s.center_x + (centerPixelX - s.renderWidth / 2) * scale,
             pinchCenterY := s.center_y + (centerPixelY - s.renderHeight / 2) * scale }
  else s

/-- handleFingerUp from sdl_draw.c, lines 451-575.  The source's tap checks
compare fabsf deltas scaled to pixels against 20 and sqrtf of the tap
distance against DOUBLE_TAP_DIST; the latter is modelled by comparing the
squared distance against DOUBLE_TAP_DIST squared.  The debug marker fields
(lines 485-487, purely visual) are not modelled. -/
def handleFingerUp (s : CState) (id : ℤ) (ex ey : ℚ) (now : ℕ) : CState :=
  let nx := if ex > 1 ∨ ey > 1 then ex / s.windowWidth else ex
  let ny := if ex > 1 ∨ ey > 1 then ey / s.windowHeight else ey
  if s.numFingers = 1 ∧ id = s.finger1_id then
    if s.isPanning = false ∧ |nx - s.initialTapX| * s.windowWidth < 20 ∧
       |ny - s.initialTapY| * s.windowHeight < 20 then
      let tapX := nx * s.renderWidth
      let tapY := ny * s.renderHeight
      if u32sub now s.lastTapTime < DOUBLE_TAP_TIME ∧
         (tapX - s.lastTapX) ^ 2 + (tapY - s.lastTapY) ^ 2 < DOUBLE_TAP_DIST ^ 2 then
        { s with center_x := -1/2, center_y := 0, zoom := 1,
                 lastZoomTime := now, needsRedraw := true,
                 lastTapTime := 0, lastTapX := 0, lastTapY := 0,
                 finger1_id := 0, numFingers := 0, isPanning := false,
                 touchHoldZoomActive := false }
      else if u32sub now s.lastZoomTime < TAP_DEBOUNCE_TIME then
        { s with lastTapX := tapX, lastTapY := tapY,
                 finger1_id := 0, numFingers := 0, isPanning := false,
                 touchHoldZoomActive := false }
      else
        let scale := 4 / (s.renderWidth * s.zoom)
        let worldX := s.center_x + (tapX - s.renderWidth / 2) * scale
        let worldY := s.center_y + (tapY - s.renderHeight / 2) * scale
        let newZoom := s.zoom * (3/2)
        if newZoom ≤ MAX_ZOOM then
          let newScale := 4 / (s.renderWidth * newZoom)
          { s with zoom := newZoom,
                   center_x := worldX - (tapX - s.renderWidth / 2) * newScale,
                   center_y := worldY - (tapY - s.renderHeight / 2) * newScale,
                   lastZoomTime := now, needsRedraw := true,
                   lastTapTime := now, lastTapX := tapX, lastTapY := tapY,
                   finger1_id := 0, numFingers := 0, isPanning := false,
                   touchHoldZoomActive := false }
        else
          { s with lastTapTime := now, lastTapX := tapX, lastTapY := tapY,
                   finger1_id := 0, numFingers := 0, isPanning := false,
                   touchHoldZoomActive := false }
    else
      { s with finger1_id := 0, numFingers := 0, isPanning := false,
               touchHoldZoomActive := false }
  else if s.numFingers = 2 then
    let k1id := if id = s.finger1_id then s.finger2_id else s.finger1_id
    let k1x := if id = s.finger1_id then s.finger2_x else s.finger1_x
    let k1y := if id = s.finger1_id then s.finger2_y else s.finger1_y
    { s with finger1_id := k1id, finger1_x := k1x, finger1_y := k1y,
             finger2_id := 0, numFingers := 1, isPanning := true,
             lastPanX := k1x, lastPanY := k1y,
             initialTapX := k1x, initialTapY := k1y }
  else if id = s.finger1_id then
    { s with finger1_id := 0, numFingers := 0, isPanning := false }
  else s

/-- updateTouchHoldZoom from sdl_draw.c, lines 578-617. -/
def updateTouchHoldZoom (s : CState) (now : ℕ) : CState :=
  if ¬s.numFingers = 1 ∨ s.isPanning = true then s
  else if s.touchHoldZoomActive = false ∧ u32sub now s.touchHoldStartTime < HOLD_ZOOM_DELAY then s
  else
    let s2 := { s with touchHoldZoomActive := true }
    let touchPixelX := s2.touchHoldX * s2.renderWidth
    let touchPixelY := s2.touchHoldY * s2.renderHeight
    let scale := 4 / (s2.renderWidth * s2.zoom)
    let worldX := s2.center_x + (touchPixelX - s2.renderWidth / 2) * scale
    let worldY := s2.center_y + (touchPixelY - s2.renderHeight / 2) * scale
    let newZoom := if s2.zoom * HOLD_ZOOM_RATE ≤ MAX_ZOOM then s2.zoom * HOLD_ZOOM_RATE else s2.zoom
    let newScale := 4 / (s2.renderWidth * newZoom)
    { s2 with zoom := newZoom,
              center_x := worldX - (touchPixelX - s2.renderWidth / 2) * newScale,
              center_y := worldY - (touchPixelY - s2.renderHeight / 2) * newScale,
              needsRedraw := true }

/-- The single-finger branch of handleFingerMotion from sdl_draw.c,
lines 620-677, including the two-finger fall-through (a motion for a finger
other than the tracked one, or with a finger count other than 1, leaves the
state unchanged here; the two-finger pinch branch is handleFingerMotionPinch
below).  The source compares sqrtf of the squared normalized deltas times
windowWidth against 5 and 15; that is modelled by comparing the squared
deltas times windowWidth squared against 25 and 225, which is equivalent
for the nonnegative operands involved. -/
def handleFingerMotion (s : CState) (id : ℤ) (x y : ℚ) : CState :=
  let nx := if x > 1 ∨ y > 1 then x / s.windowWidth else x
  let ny := if x > 1 ∨ y > 1 then y / s.windowHeight else y
  if s.numFingers = 1 ∧ id = s.finger1_id then
    let moveDistSq := ((nx - s.initialTapX) ^ 2 + (ny - s.initialTapY) ^ 2) * s.windowWidth ^ 2
    let s2 := if moveDistSq > 25 then
                { s with touchHoldZoomActive := false, touchHoldStartTime := 4294967295 }
              else s
    let s3 := if moveDistSq > 225 ∧ s2.isPanning = false then
                { s2 with isPanning := true, lastPanX := nx, lastPanY := ny }
              else s2
    if s3.isPanning = true then
      let dx := nx - s3.lastPanX
      let dy := ny - s3.lastPanY
      let scale := 4 / (s3.renderWidth * s3.zoom)
      { s3 with center_x := s3.center_x - dx * s3.renderWidth * scale,
                center_y := s3.center_y - dy * s3.renderHeight * scale,
                lastPanX := nx, lastPanY := ny,
                finger1_x := nx, finger1_y := ny, needsRedraw := true }
    else s3
  else s

/-- The two-finger branch of handleFingerMotion from sdl_draw.c,
lines 678-715.  initialPinchDist and currentDist are the two sqrtf-computed
distances (getTouchDistance results) which the source divides to obtain the
zoom factor; since square roots are irrational they are supplied as inputs
here (see the module comment). -/
def handleFingerMotionPinch (s : CState) (id : ℤ) (x y : ℚ)
    (initialPinchDist currentDist : ℚ) : CState :=
  let nx := if x > 1 ∨ y > 1 then x / s.windowWidth else x
  let ny := if x > 1 ∨ y > 1 then y / s.windowHeight else y
  let f1x := if id = s.finger1_id then nx else s.finger1_x
  let f1y := if id = s.finger1_id then ny else s.finger1_y
  let f2x := if id = s.finger1_id then s.finger2_x else if id = s.finger2_id then nx else s.finger2_x
  let f2y := if id = s.finger1_id then s.finger2_y else if id = s.finger2_id then ny else s.finger2_y
  let s2 := { s with finger1_x := f1x, finger1_y := f1y, finger2_x := f2x, finger2_y := f2y }
  if initialPinchDist > 0 then
    let zoomFactor := currentDist / initialPinchDist
    let newZoom := s2.initialZoom * zoomFactor
    let newZoom2 := if newZoom < MIN_ZOOM then MIN_ZOOM else newZoom
    let newZoom3 := if newZoom2 > MAX_ZOOM then MAX_ZOOM else newZoom2
    let centerPixelX := (s2.finger1_x + s2.finger2_x) / 2 * s2.renderWidth
    let centerPixelY := (s2.finger1_y + s2.finger2_y) / 2 * s2.renderHeight
    let newScale := 4 / (s2.renderWidth * newZoom3)
    { s2 with zoom := newZoom3,
              center_x := s2.pinchCenterX - (centerPixelX - s2.renderWidth / 2) * newScale,
              center_y := s2.pinchCenterY - (centerPixelY - s2.renderHeight / 2) * newScale,
              needsRedraw := true }
  else s2

end C

namespace Cpp

/-- Mandelbrot::getColor(iter, maxIter) from sdl_draw.cpp, lines 76-97.
Identical to the C version except that the channels are clamped with
std::clamp(v, 0, 255) on both sides. -/
def getColor (iter maxIter : ℕ) : ℕ :=
  if iter = maxIter then 0xFF000000
  else
    let t : ℚ := (iter : ℚ) / (maxIter : ℚ)
    let r : ℤ := stdClampZ (truncInt (9 * (1 - t) * t * t * t * 255)) 0 255
    let g : ℤ := stdClampZ (truncInt (15 * (1 - t) * (1 - t) * t * t * 255)) 0 255
    let b : ℤ := stdClampZ (truncInt (85 / 10 * (1 - t) * (1 - t) * (1 - t) * t * 255)) 0 255
    0xFF000000 ||| (r.toNat <<< 16) ||| (g.toNat <<< 8) ||| b.toNat

/-- ViewState from sdl_draw.cpp, lines 105-147. -/
structure ViewState where
  zoom : ℚ
  centerX : ℚ
  centerY : ℚ
  maxIter : ℕ
deriving DecidableEq, Repr

/-- The default-constructed ViewState of sdl_draw.cpp (lines 107-110). -/
def ViewState.default : ViewState where
  zoom := 1
  centerX := -1/2
  centerY := 0
  maxIter := 256

/-- ViewState::getScale(renderWidth), sdl_draw.cpp lines 112-115. -/
def getScale (v : ViewState) (w : ℚ) : ℚ := 4 / (w * v.zoom)

/-- ViewState::reset(), sdl_draw.cpp lines 117-122. -/
def reset (v : ViewState) : ViewState :=
  { v with zoom := 1, centerX := -1/2, centerY := 0 }

/-- ViewState::clampZoom(), sdl_draw.cpp lines 124-127. -/
def clampZoom (v : ViewState) : ViewState :=
  { v with zoom := stdClampQ v.zoom MIN_ZOOM MAX_ZOOM }

/-- ViewState::screenToWorld(px, py, w, h, wx, wy), sdl_draw.cpp
lines 129-135, returning the pair (wx, wy). -/
def screenToWorld (v : ViewState) (px py w h : ℚ) : ℚ × ℚ :=
  (v.centerX + (px - w / 2) * getScale v w,
   v.centerY + (py - h / 2) * getScale v w)

/-- ViewState::zoomTowardPoint(worldX, worldY, screenX, screenY, w, h,
factor), sdl_draw.cpp lines 137-146. -/
def zoomTowardPoint (v : ViewState) (worldX worldY screenX screenY w h factor : ℚ) :
    ViewState :=
  let v2 := clampZoom { v with zoom := v.zoom * factor }
  { v2 with centerX := worldX - (screenX - w / 2) * getScale v2 w,
            centerY := worldY - (screenY - h / 2) * getScale v2 w }

/-- MandelbrotApp::handleMouseWheel, sdl_draw.cpp lines 717-729: the
viewport mutation it performs on view_ given the wheel event's y, the
current mouse position and the surface size. -/
def handleMouseWheel (v : ViewState) (wheelY : ℤ) (mouseX mouseY w h : ℚ) : ViewState :=
  let wxy := screenToWorld v mouseX mouseY w h
  let factor := if wheelY > 0 then WHEEL_ZOOM_FACTOR else 1 / WHEEL_ZOOM_FACTOR
  zoomTowardPoint v wxy.1 wxy.2 mouseX mouseY w h factor

/-- The click-zoom path of MandelbrotApp::handleMouseButtonUp, sdl_draw.cpp
lines 664-676: the viewport mutation performed when the released button was
the tracked left or right button, panning was not active and hold-zoom never
activated. -/
def clickZoom (v : ViewState) (button : ℕ) (x y w h : ℚ) : ViewState :=
  let wxy := screenToWorld v x y w h
  let factor := if button = SDL_BUTTON_LEFT then CLICK_ZOOM_FACTOR
                else 1 / CLICK_ZOOM_FACTOR
  zoomTowardPoint v wxy.1 wxy.2 x y w h factor

end Cpp

/-- The color contract exactly as the specification words it: if
iterCount equals maxIter, opaque black; otherwise t = iterCount / maxIter,
r = trunc(9(1-t) t^3 255), g = trunc(15(1-t)^2 t^2 255),
b = trunc(8.5(1-t)^3 t 255), each clamped to the interval from 0 to 255,
packed as 0xFF shifted left 24 or r shifted left 16 or g shifted left 8
or b.  Stated from the specification's sentence, to be compared with the
source definitions. -/
def colorOfSpec (iterCount maxIter : ℕ) : ℕ :=
  if iterCount = maxIter then 0xFF000000
  else
    let t : ℚ := (iterCount : ℚ) / (maxIter : ℚ)
    let r : ℤ := max 0 (min (truncInt (9 * (1 - t) * t ^ 3 * 255)) 255)
    let g : ℤ := max 0 (min (truncInt (15 * (1 - t) ^ 2 * t ^ 2 * 255)) 255)
    let b : ℤ := max 0 (min (truncInt (85 / 10 * (1 - t) ^ 3 * t * 255)) 255)
    (0xFF <<< 24) ||| (r.toNat <<< 16) ||| (g.toNat <<< 8) ||| b.toNat

/-! ## Helper lemmas -/

/-- Truncation toward zero of a nonnegative rational is its floor. -/
lemma truncInt_nonneg (q : ℚ) (hq : 0 ≤ q) : 0 ≤ truncInt q := by
  unfold truncInt
  rw [if_neg (not_lt.mpr hq)]
  exact Int.floor_nonneg.mpr hq

/-- A channel computed by the C getColor (clamped above only) agrees with
the two-sided clamp of the specification whenever the unclamped value is
nonnegative. -/
lemma channel_c_eq (a b : ℚ) (hab : a = b) (hb : 0 ≤ b) :
    (if truncInt a > 255 then (255 : ℤ) else truncInt a) =
      max 0 (min (truncInt b) 255) := by
  subst hab
  have h0 : 0 ≤ truncInt a := truncInt_nonneg a hb
  split_ifs with h <;> omega

/-- std::clamp(v, 0, 255) is the two-sided clamp of the specification. -/
lemma channel_cpp_eq (a b : ℚ) (hab : a = b) :
    stdClampZ (truncInt a) 0 255 = max 0 (min (truncInt b) 255) := by
  subst hab
  unfold stdClampZ
  split_ifs <;> omega

/-- The escape loop never counts more steps than it has fuel. -/
lemma mandelbrotGo_le (cr ci : ℚ) :
    ∀ (fuel : ℕ) (zr zi : ℚ), mandelbrotGo cr ci zr zi fuel ≤ fuel := by
  intro fuel
  induction fuel with
  | zero => intro zr zi; simp [mandelbrotGo]
  | succ n ih =>
    intro zr zi
    unfold mandelbrotGo
    split
    · exact Nat.succ_le_succ (ih _ _)
    · exact Nat.zero_le _

/-- stdClampQ stays between its bounds. -/
lemma stdClampQ_mem (v lo hi : ℚ) (h : lo ≤ hi) :
    lo ≤ stdClampQ v lo hi ∧ stdClampQ v lo hi ≤ hi := by
  unfold stdClampQ
  split_ifs <;> constructor <;> linarith

/-- stdClampQ of a value already between the bounds is that value. -/
lemma stdClampQ_eq_self (v lo hi : ℚ) (h1 : lo ≤ v) (h2 : v ≤ hi) :
    stdClampQ v lo hi = v := by
  unfold stdClampQ
  split_ifs <;> linarith

/-! ## Claims -/

/-- C8: for every pair of rationals (modelling the doubles) and every
iteration budget, mandelbrot / Mandelbrot::iterate terminates (it is a
total structurally recursive Lean function) and its result lies in
the interval from 0 to maxIter. -/
theorem claim_C8_iterate_bounded (cr ci : ℚ) (maxIter : ℕ) :
    0 ≤ mandelbrot cr ci maxIter ∧ mandelbrot cr ci maxIter ≤ maxIter :=
  ⟨Nat.zero_le _, mandelbrotGo_le cr ci maxIter 0 0⟩

/-- C4: for every viewport, screen point, surface size and zoom factor,
the world coordinate read back by screenToWorld at the anchor pixel after
zoomTowardPoint equals the world coordinate read before the zoom, exactly
in the rational model (hence within floating-point epsilon in the source),
including when the new zoom was clamped. -/
theorem claim_C4_zoom_anchor (v : Cpp.ViewState) (px py w h f : ℚ) :
    Cpp.screenToWorld
      (Cpp.zoomTowardPoint v (Cpp.screenToWorld v px py w h).1
        (Cpp.screenToWorld v px py w h).2 px py w h f) px py w h =
      Cpp.screenToWorld v px py w h := by
  simp only [Cpp.screenToWorld, Cpp.zoomTowardPoint, Cpp.clampZoom, Cpp.getScale]
  refine Prod.ext ?_ ?_ <;> dsimp <;> ring

/-- C7: for every maxIter greater than 0 and iterCount at most maxIter,
the C getColor and the C++ Mandelbrot::getColor both compute exactly the
specification's colour: opaque black at iterCount = maxIter, and otherwise
the truncated polynomial channels clamped to the interval from 0 to 255 and
packed as 0xFF shifted 24 or r shifted 16 or g shifted 8 or b. -/
theorem claim_C7_color (iter maxIter : ℕ) (hmax : 0 < maxIter) (hiter : iter ≤ maxIter) :
    C.getColor iter maxIter = colorOfSpec iter maxIter ∧
    Cpp.getColor iter maxIter = colorOfSpec iter maxIter ∧
    C.getColor maxIter maxIter = 0xFF000000 := by
  by_cases h : iter = maxIter
  · simp [C.getColor, Cpp.getColor, colorOfSpec, h]
  · have hmQ : (0 : ℚ) < (maxIter : ℚ) := by exact_mod_cast hmax
    have ht0 : 0 ≤ ((iter : ℚ) / (maxIter : ℚ)) := by positivity
    have ht1 : ((iter : ℚ) / (maxIter : ℚ)) ≤ 1 := by
      rw [div_le_one hmQ]
      exact_mod_cast hiter
    set t : ℚ := (iter : ℚ) / (maxIter : ℚ) with hts
    have h1t : 0 ≤ 1 - t := by linarith
    have hra : 9 * (1 - t) * t * t * t * 255 = 9 * (1 - t) * t ^ 3 * 255 := by ring
    have hga : 15 * (1 - t) * (1 - t) * t * t * 255 = 15 * (1 - t) ^ 2 * t ^ 2 * 255 := by
      ring
    have hba : 85 / 10 * (1 - t) * (1 - t) * (1 - t) * t * 255 =
        85 / 10 * (1 - t) ^ 3 * t * 255 := by ring
    have hrn : (0 : ℚ) ≤ 9 * (1 - t) * t ^ 3 * 255 :=
      mul_nonneg (mul_nonneg (mul_nonneg (by norm_num) h1t) (pow_nonneg ht0 3))
        (by norm_num)
    have hgn : (0 : ℚ) ≤ 15 * (1 - t) ^ 2 * t ^ 2 * 255 :=
      mul_nonneg (mul_nonneg (mul_nonneg (by norm_num) (pow_nonneg h1t 2))
        (pow_nonneg ht0 2)) (by norm_num)
    have hbn : (0 : ℚ) ≤ 85 / 10 * (1 - t) ^ 3 * t * 255 :=
      mul_nonneg (mul_nonneg (mul_nonneg (by norm_num) (pow_nonneg h1t 3)) ht0)
        (by norm_num)
    have hshift : (255 <<< 24 : ℕ) = 4278190080 := rfl
    refine ⟨?_, ?_, by simp [C.getColor]⟩
    · simp only [C.getColor, colorOfSpec, if_neg h, ← hts]
      rw [channel_c_eq _ _ hra hrn, channel_c_eq _ _ hga hgn, channel_c_eq _ _ hba hbn,
        hshift]
    · simp only [Cpp.getColor, colorOfSpec, if_neg h, ← hts]
      rw [channel_cpp_eq _ _ hra, channel_cpp_eq _ _ hga, channel_cpp_eq _ _ hba, hshift]

/-- Helper: MIN_ZOOM is at most MAX_ZOOM. -/
lemma min_le_max_zoom : MIN_ZOOM ≤ MAX_ZOOM := by norm_num [MIN_ZOOM, MAX_ZOOM]

/-- Helper: the viewport is untouched by updateMouseHoldZoom when the held
left button's proposed zoom-in exceeds MAX_ZOOM (the guard skips the zoom
assignment and the centre recomputation with the unchanged zoom is the
identity). -/
lemma mouseHoldZoom_left_skip (s : C.CState) (now : ℕ) (mouseX mouseY : ℚ)
    (hL : s.mouseButtonHeld = SDL_BUTTON_LEFT)
    (hmax : MAX_ZOOM < s.zoom * HOLD_ZOOM_RATE) :
    (C.updateMouseHoldZoom s now mouseX mouseY).zoom = s.zoom ∧
    (C.updateMouseHoldZoom s now mouseX mouseY).center_x = s.center_x ∧
    (C.updateMouseHoldZoom s now mouseX mouseY).center_y = s.center_y := by
  have hne : ¬(s.zoom * HOLD_ZOOM_RATE ≤ MAX_ZOOM) := not_le.mpr hmax
  simp only [C.updateMouseHoldZoom, hL, SDL_BUTTON_LEFT, SDL_BUTTON_RIGHT]
  split_ifs <;>
    first
      | exact ⟨rfl, rfl, rfl⟩
      | (refine ⟨rfl, ?_, ?_⟩ <;> dsimp <;> ring)
      | simp_all

/-- Helper: the viewport is untouched by updateMouseHoldZoom when the held
right button's proposed zoom-out falls below MIN_ZOOM. -/
lemma mouseHoldZoom_right_skip (s : C.CState) (now : ℕ) (mouseX mouseY : ℚ)
    (hR : s.mouseButtonHeld = SDL_BUTTON_RIGHT)
    (hmin : s.zoom / HOLD_ZOOM_RATE < MIN_ZOOM) :
    (C.updateMouseHoldZoom s now mouseX mouseY).zoom = s.zoom ∧
    (C.updateMouseHoldZoom s now mouseX mouseY).center_x = s.center_x ∧
    (C.updateMouseHoldZoom s now mouseX mouseY).center_y = s.center_y := by
  have hne : ¬(s.zoom / HOLD_ZOOM_RATE ≥ MIN_ZOOM) := not_le.mpr hmin
  simp only [C.updateMouseHoldZoom, hR, SDL_BUTTON_LEFT, SDL_BUTTON_RIGHT]
  split_ifs <;>
    first
      | exact ⟨rfl, rfl, rfl⟩
      | (refine ⟨rfl, ?_, ?_⟩ <;> dsimp <;> ring)
      | simp_all

/-- Helper: the viewport is untouched by updateTouchHoldZoom when the
proposed zoom-in exceeds MAX_ZOOM. -/
lemma touchHoldZoom_skip (s : C.CState) (now : ℕ)
    (hmax : MAX_ZOOM < s.zoom * HOLD_ZOOM_RATE) :
    (C.updateTouchHoldZoom s now).zoom = s.zoom ∧
    (C.updateTouchHoldZoom s now).center_x = s.center_x ∧
    (C.updateTouchHoldZoom s now).center_y = s.center_y := by
  have hne : ¬(s.zoom * HOLD_ZOOM_RATE ≤ MAX_ZOOM) := not_le.mpr hmax
  simp only [C.updateTouchHoldZoom]
  split_ifs <;>
    first
      | exact ⟨rfl, rfl, rfl⟩
      | (refine ⟨rfl, ?_, ?_⟩ <;> dsimp <;> ring)
      | simp_all

/-- Helper: the pinch branch of handleFingerMotion applies exactly the
std::clamp of the proposed zoom (the source's two sequential guards). -/
lemma pinch_clamps (s : C.CState) (id : ℤ) (x y d0 d1 : ℚ) (hd0 : d0 > 0) :
    (C.handleFingerMotionPinch s id x y d0 d1).zoom =
      stdClampQ (s.initialZoom * (d1 / d0)) MIN_ZOOM MAX_ZOOM ∧
    (C.handleFingerMotionPinch s id x y d0 d1).needsRedraw = true := by
  have hmm := min_le_max_zoom
  simp only [C.handleFingerMotionPinch, stdClampQ, if_pos hd0]
  constructor
  · dsimp
    split_ifs <;> linarith
  · dsimp

/-- Helper: the viewport is untouched by the tap path of handleFingerUp
when the tap is a qualifying non-double non-debounced tap whose proposed
zoom exceeds MAX_ZOOM. -/
lemma tap_zoom_skip (s : C.CState) (id : ℤ) (ex ey : ℚ) (now : ℕ)
    (hnorm : ¬(ex > 1 ∨ ey > 1))
    (hfing : s.numFingers = 1 ∧ id = s.finger1_id)
    (htap : s.isPanning = false ∧ |ex - s.initialTapX| * s.windowWidth < 20 ∧
      |ey - s.initialTapY| * s.windowHeight < 20)
    (hnotdouble : ¬(u32sub now s.lastTapTime < DOUBLE_TAP_TIME ∧
      (ex * s.renderWidth - s.lastTapX) ^ 2 + (ey * s.renderHeight - s.lastTapY) ^ 2 <
        DOUBLE_TAP_DIST ^ 2))
    (hnotdeb : ¬(u32sub now s.lastZoomTime < TAP_DEBOUNCE_TIME))
    (hmax : MAX_ZOOM < s.zoom * (3/2)) :
    (C.handleFingerUp s id ex ey now).zoom = s.zoom ∧
    (C.handleFingerUp s id ex ey now).center_x = s.center_x ∧
    (C.handleFingerUp s id ex ey now).center_y = s.center_y := by
  have hne : ¬(s.zoom * (3/2) ≤ MAX_ZOOM) := not_le.mpr hmax
  simp only [C.handleFingerUp, if_neg hnorm, if_pos hfing, if_pos htap,
    if_neg hnotdouble, if_neg hnotdeb, if_neg hne]
  refine ⟨?_, ?_, ?_⟩ <;> first | rfl | trivial

/-- C2 (amended): a pinch update whose proposed zoom falls outside the zoom
range is clamped to the nearest bound and applied; a hold-zoom or tap-zoom
update whose proposed zoom falls outside the range is skipped entirely
(zoom and centre unchanged); but a click-zoom update (mouse button release)
is applied with no bound check at all in the C implementation (see the
counterexample; the C++ implementation clamps it instead); in no case is a
partial update applied. -/
theorem claim_C2_amended :
    (∀ (s : C.CState) (id : ℤ) (x y d0 d1 : ℚ), d0 > 0 →
      (C.handleFingerMotionPinch s id x y d0 d1).zoom =
        stdClampQ (s.initialZoom * (d1 / d0)) MIN_ZOOM MAX_ZOOM ∧
      (C.handleFingerMotionPinch s id x y d0 d1).needsRedraw = true) ∧
    (∀ (s : C.CState) (now : ℕ) (mouseX mouseY : ℚ),
      s.mouseButtonHeld = SDL_BUTTON_LEFT → MAX_ZOOM < s.zoom * HOLD_ZOOM_RATE →
      (C.updateMouseHoldZoom s now mouseX mouseY).zoom = s.zoom ∧
      (C.updateMouseHoldZoom s now mouseX mouseY).center_x = s.center_x ∧
      (C.updateMouseHoldZoom s now mouseX mouseY).center_y = s.center_y) ∧
    (∀ (s : C.CState) (now : ℕ) (mouseX mouseY : ℚ),
      s.mouseButtonHeld = SDL_BUTTON_RIGHT → s.zoom / HOLD_ZOOM_RATE < MIN_ZOOM →
      (C.updateMouseHoldZoom s now mouseX mouseY).zoom = s.zoom ∧
      (C.updateMouseHoldZoom s now mouseX mouseY).center_x = s.center_x ∧
      (C.updateMouseHoldZoom s now mouseX mouseY).center_y = s.center_y) ∧
    (∀ (s : C.CState) (now : ℕ), MAX_ZOOM < s.zoom * HOLD_ZOOM_RATE →
      (C.updateTouchHoldZoom s now).zoom = s.zoom ∧
      (C.updateTouchHoldZoom s now).center_x = s.center_x ∧
      (C.updateTouchHoldZoom s now).center_y = s.center_y) ∧
    (∀ (s : C.CState) (id : ℤ) (ex ey : ℚ) (now : ℕ),
      ¬(ex > 1 ∨ ey > 1) →
      s.numFingers = 1 ∧ id = s.finger1_id →
      (s.isPanning = false ∧ |ex - s.initialTapX| * s.windowWidth < 20 ∧
        |ey - s.initialTapY| * s.windowHeight < 20) →
      ¬(u32sub now s.lastTapTime < DOUBLE_TAP_TIME ∧
        (ex * s.renderWidth - s.lastTapX) ^ 2 + (ey * s.renderHeight - s.lastTapY) ^ 2 <
          DOUBLE_TAP_DIST ^ 2) →
      ¬(u32sub now s.lastZoomTime < TAP_DEBOUNCE_TIME) →
      MAX_ZOOM < s.zoom * (3/2) →
      (C.handleFingerUp s id ex ey now).zoom = s.zoom ∧
      (C.handleFingerUp s id ex ey now).center_x = s.center_x ∧
      (C.handleFingerUp s id ex ey now).center_y = s.center_y) :=
  ⟨fun s id x y d0 d1 hd0 => pinch_clamps s id x y d0 d1 hd0,
   fun s now mx my hL hmax => mouseHoldZoom_left_skip s now mx my hL hmax,
   fun s now mx my hR hmin => mouseHoldZoom_right_skip s now mx my hR hmin,
   fun s now hmax => touchHoldZoom_skip s now hmax,
   fun s id ex ey now hnorm hfing htap hnd hndeb hmax =>
     tap_zoom_skip s id ex ey now hnorm hfing htap hnd hndeb hmax⟩

/-- C2 witness: the amended theorem instantiated concretely, among others at
a pinch whose proposed zoom exceeds MAX_ZOOM and a left-button hold zoom at
zoom MAX_ZOOM. -/
theorem claim_C2_witness :
    ((C.handleFingerMotionPinch C.init 1 (1/2) (1/2) 1 (2 * 10 ^ 14)).zoom =
      stdClampQ (C.init.initialZoom * (2 * 10 ^ 14 / 1)) MIN_ZOOM MAX_ZOOM ∧
     (C.handleFingerMotionPinch C.init 1 (1/2) (1/2) 1 (2 * 10 ^ 14)).needsRedraw = true) ∧
    ((C.updateMouseHoldZoom
        { C.init with zoom := MAX_ZOOM, mouseButtonHeld := SDL_BUTTON_LEFT }
        200 400 300).zoom = MAX_ZOOM) := by
  refine ⟨claim_C2_amended.1 C.init 1 (1/2) (1/2) 1 (2 * 10 ^ 14) (by norm_num), ?_⟩
  have h := (claim_C2_amended.2.1
    { C.init with zoom := MAX_ZOOM, mouseButtonHeld := SDL_BUTTON_LEFT }
    200 400 300 rfl (by norm_num [MAX_ZOOM, HOLD_ZOOM_RATE])).1
  simpa using h

/-- C2 counterexample: the claim's assertion that a click-zoom update whose
proposed zoom falls outside the range is skipped entirely is false: from a
valid state at zoom MAX_ZOOM with the left button pressed (no pan, no hold
zoom), handleMouseButtonUp in sdl_draw.c multiplies zoom by 1.5 with no
bound check, yielding 1.5e14 which exceeds MAX_ZOOM. -/
theorem claim_C2_counterexample :
    (C.handleMouseButtonUp
        { C.init with zoom := MAX_ZOOM, mouseButtonHeld := SDL_BUTTON_LEFT }
        SDL_BUTTON_LEFT 400 300).zoom = MAX_ZOOM * (3/2) ∧
    MAX_ZOOM < MAX_ZOOM * (3/2) := by
  constructor
  · norm_num [C.handleMouseButtonUp, C.init, SDL_BUTTON_LEFT, SDL_BUTTON_MIDDLE,
      MAX_ZOOM]
  · norm_num [MAX_ZOOM]

/-- Helper: a zoom at least MIN_ZOOM stays at least MIN_ZOOM after
multiplication by HOLD_ZOOM_RATE. -/
lemma rate_mul_lower (z : ℚ) (h1 : MIN_ZOOM ≤ z) : MIN_ZOOM ≤ z * HOLD_ZOOM_RATE := by
  norm_num [MIN_ZOOM, HOLD_ZOOM_RATE] at *
  linarith

/-- Helper: a zoom at most MAX_ZOOM stays at most MAX_ZOOM after division
by HOLD_ZOOM_RATE. -/
lemma rate_div_upper (z : ℚ) (h1 : MIN_ZOOM ≤ z) (h2 : z ≤ MAX_ZOOM) :
    z / HOLD_ZOOM_RATE ≤ MAX_ZOOM := by
  norm_num [MIN_ZOOM, MAX_ZOOM, HOLD_ZOOM_RATE] at *
  linarith

/-- Helper: a zoom at least MIN_ZOOM stays at least MIN_ZOOM after
multiplication by the click/tap factor 1.5. -/
lemma click_mul_lower (z : ℚ) (h1 : MIN_ZOOM ≤ z) : MIN_ZOOM ≤ z * (3/2) := by
  norm_num [MIN_ZOOM] at *
  linarith

/-- C1 (amended): every viewport-mutating operation except the C
implementation's wheel zoom and click zoom keeps zoom inside the interval
from MIN_ZOOM to MAX_ZOOM whenever it starts inside: mouse hold zoom, touch
hold zoom, finger-up (tap zoom, double-tap reset and the finger-count
transitions), single-finger pan, pinch zoom and mouse pan in sdl_draw.c,
and ViewState::zoomTowardPoint (used by wheel and click zoom) in
sdl_draw.cpp, which clamps unconditionally.  The C wheel zoom and click
zoom are applied with no bound check and can leave the interval (see the
counterexample). -/
theorem claim_C1_amended :
    (∀ (s : C.CState) (now : ℕ) (mouseX mouseY : ℚ),
      MIN_ZOOM ≤ s.zoom → s.zoom ≤ MAX_ZOOM →
      MIN_ZOOM ≤ (C.updateMouseHoldZoom s now mouseX mouseY).zoom ∧
      (C.updateMouseHoldZoom s now mouseX mouseY).zoom ≤ MAX_ZOOM) ∧
    (∀ (s : C.CState) (now : ℕ),
      MIN_ZOOM ≤ s.zoom → s.zoom ≤ MAX_ZOOM →
      MIN_ZOOM ≤ (C.updateTouchHoldZoom s now).zoom ∧
      (C.updateTouchHoldZoom s now).zoom ≤ MAX_ZOOM) ∧
    (∀ (s : C.CState) (id : ℤ) (ex ey : ℚ) (now : ℕ),
      MIN_ZOOM ≤ s.zoom → s.zoom ≤ MAX_ZOOM →
      MIN_ZOOM ≤ (C.handleFingerUp s id ex ey now).zoom ∧
      (C.handleFingerUp s id ex ey now).zoom ≤ MAX_ZOOM) ∧
    (∀ (s : C.CState) (id : ℤ) (x y : ℚ),
      MIN_ZOOM ≤ s.zoom → s.zoom ≤ MAX_ZOOM →
      MIN_ZOOM ≤ (C.handleFingerMotion s id x y).zoom ∧
      (C.handleFingerMotion s id x y).zoom ≤ MAX_ZOOM) ∧
    (∀ (s : C.CState) (id : ℤ) (x y d0 d1 : ℚ),
      MIN_ZOOM ≤ s.zoom → s.zoom ≤ MAX_ZOOM →
      MIN_ZOOM ≤ (C.handleFingerMotionPinch s id x y d0 d1).zoom ∧
      (C.handleFingerMotionPinch s id x y d0 d1).zoom ≤ MAX_ZOOM) ∧
    (∀ (s : C.CState) (x y : ℚ),
      MIN_ZOOM ≤ s.zoom → s.zoom ≤ MAX_ZOOM →
      MIN_ZOOM ≤ (C.handleMouseMotion s x y).zoom ∧
      (C.handleMouseMotion s x y).zoom ≤ MAX_ZOOM) ∧
    (∀ (v : Cpp.ViewState) (wx wy sx sy w h f : ℚ),
      MIN_ZOOM ≤ (Cpp.zoomTowardPoint v wx wy sx sy w h f).zoom ∧
      (Cpp.zoomTowardPoint v wx wy sx sy w h f).zoom ≤ MAX_ZOOM) := by
  refine ⟨?_, ?_, ?_, ?_, ?_, ?_, ?_⟩
  · intro s now mouseX mouseY h1 h2
    simp only [C.updateMouseHoldZoom]
    split_ifs <;> (try dsimp) <;>
      refine ⟨?_, ?_⟩ <;>
        first
          | assumption
          | exact rate_mul_lower s.zoom h1
          | exact rate_div_upper s.zoom h1 h2
  · intro s now h1 h2
    simp only [C.updateTouchHoldZoom]
    split_ifs <;> (try dsimp) <;>
      refine ⟨?_, ?_⟩ <;>
        first
          | assumption
          | exact rate_mul_lower s.zoom h1
  · intro s id ex ey now h1 h2
    simp only [C.handleFingerUp]
    split_ifs <;> (try dsimp) <;>
      refine ⟨?_, ?_⟩ <;>
        first
          | assumption
          | exact click_mul_lower s.zoom h1
          | norm_num [MIN_ZOOM, MAX_ZOOM]
  · intro s id x y h1 h2
    simp only [C.handleFingerMotion]
    split_ifs <;> (try dsimp) <;> exact ⟨h1, h2⟩
  · intro s id x y d0 d1 h1 h2
    have hmm := min_le_max_zoom
    simp only [C.handleFingerMotionPinch]
    split_ifs <;> (try dsimp) <;>
      refine ⟨?_, ?_⟩ <;>
        first
          | assumption
          | linarith [min_le_max_zoom]
  · intro s x y h1 h2
    simp only [C.handleMouseMotion]
    split_ifs <;> (try dsimp) <;> exact ⟨h1, h2⟩
  · intro v wx wy sx sy w h f
    simp only [Cpp.zoomTowardPoint, Cpp.clampZoom, Cpp.getScale]
    try dsimp
    exact stdClampQ_mem _ _ _ min_le_max_zoom

/-- C1 witness: the amended theorem instantiated at the initial state
(zoom 1) for each of the operations it covers. -/
theorem claim_C1_witness :
    (MIN_ZOOM ≤ (C.updateMouseHoldZoom C.init 200 400 300).zoom ∧
      (C.updateMouseHoldZoom C.init 200 400 300).zoom ≤ MAX_ZOOM) ∧
    (MIN_ZOOM ≤ (C.updateTouchHoldZoom C.init 200).zoom ∧
      (C.updateTouchHoldZoom C.init 200).zoom ≤ MAX_ZOOM) ∧
    (MIN_ZOOM ≤ (C.handleFingerUp C.init 1 (1/2) (1/2) 300).zoom ∧
      (C.handleFingerUp C.init 1 (1/2) (1/2) 300).zoom ≤ MAX_ZOOM) ∧
    (MIN_ZOOM ≤ (C.handleFingerMotion C.init 1 (1/2) (1/2)).zoom ∧
      (C.handleFingerMotion C.init 1 (1/2) (1/2)).zoom ≤ MAX_ZOOM) ∧
    (MIN_ZOOM ≤ (C.handleFingerMotionPinch C.init 1 (1/2) (1/2) 100 200).zoom ∧
      (C.handleFingerMotionPinch C.init 1 (1/2) (1/2) 100 200).zoom ≤ MAX_ZOOM) ∧
    (MIN_ZOOM ≤ (C.handleMouseMotion C.init 10 10).zoom ∧
      (C.handleMouseMotion C.init 10 10).zoom ≤ MAX_ZOOM) ∧
    (MIN_ZOOM ≤ (Cpp.zoomTowardPoint Cpp.ViewState.default 0 0 400 300 800 600 2).zoom ∧
      (Cpp.zoomTowardPoint Cpp.ViewState.default 0 0 400 300 800 600 2).zoom ≤ MAX_ZOOM) := by
  have h1 : MIN_ZOOM ≤ C.init.zoom := by norm_num [MIN_ZOOM, C.init]
  have h2 : C.init.zoom ≤ MAX_ZOOM := by norm_num [MAX_ZOOM, C.init]
  exact ⟨claim_C1_amended.1 C.init 200 400 300 h1 h2,
    claim_C1_amended.2.1 C.init 200 h1 h2,
    claim_C1_amended.2.2.1 C.init 1 (1/2) (1/2) 300 h1 h2,
    claim_C1_amended.2.2.2.1 C.init 1 (1/2) (1/2) h1 h2,
    claim_C1_amended.2.2.2.2.1 C.init 1 (1/2) (1/2) 100 200 h1 h2,
    claim_C1_amended.2.2.2.2.2.1 C.init 10 10 h1 h2,
    claim_C1_amended.2.2.2.2.2.2 Cpp.ViewState.default 0 0 400 300 800 600 2⟩

/-- Helper: a wheel-down event divides the zoom by WHEEL_ZOOM_FACTOR with
no bound check, so a run of n wheel-down events divides it by the nth
power. -/
lemma foldl_wheelDown_zoom : ∀ (n : ℕ) (s : C.CState),
    ((List.replicate n (0 : ℕ)).foldl
        (fun t _ => C.handleMouseWheel t (-1) 400 300) s).zoom =
      s.zoom / WHEEL_ZOOM_FACTOR ^ n := by
  intro n
  induction n with
  | zero => intro s; simp
  | succ k ih =>
    intro s
    rw [List.replicate_succ, List.foldl_cons, ih]
    have hstep : (C.handleMouseWheel s (-1) 400 300).zoom =
        s.zoom / WHEEL_ZOOM_FACTOR := by
      simp [C.handleMouseWheel]
    rw [hstep, pow_succ]
    ring

/-- C1 counterexample: wheel zoom in sdl_draw.c has no bound check, so the
invariant fails on a reachable state: starting from the initial state and
processing seventeen wheel-down events (a trace of the real event loop),
the zoom after the final wheel operation is (20/23) to the 17th,
approximately 0.093, which is below MIN_ZOOM. -/
theorem claim_C1_counterexample :
    ((List.replicate 17 (0 : ℕ)).foldl
        (fun s _ => C.handleMouseWheel s (-1) 400 300) C.init).zoom < MIN_ZOOM := by
  rw [foldl_wheelDown_zoom]
  norm_num [C.init, WHEEL_ZOOM_FACTOR, MIN_ZOOM]

/-- C3 (amended): per event on the shared viewport, sdl_draw.c and
sdl_draw.cpp agree on wheel zoom and click zoom whenever the proposed zoom
lies within the zoom bounds (where the C++ clamp is the identity); outside
the bounds the C version applies the zoom unclamped while the C++ version
clamps, and the two viewports diverge (see the counterexample). -/
theorem claim_C3_amended :
    (∀ (s : C.CState) (v : Cpp.ViewState) (wheelY : ℤ) (mouseX mouseY w h : ℚ),
      s.zoom = v.zoom → s.center_x = v.centerX → s.center_y = v.centerY →
      s.renderWidth = w → s.renderHeight = h → wheelY > 0 →
      MIN_ZOOM ≤ v.zoom * WHEEL_ZOOM_FACTOR → v.zoom * WHEEL_ZOOM_FACTOR ≤ MAX_ZOOM →
      (C.handleMouseWheel s wheelY mouseX mouseY).zoom =
        (Cpp.handleMouseWheel v wheelY mouseX mouseY w h).zoom ∧
      (C.handleMouseWheel s wheelY mouseX mouseY).center_x =
        (Cpp.handleMouseWheel v wheelY mouseX mouseY w h).centerX ∧
      (C.handleMouseWheel s wheelY mouseX mouseY).center_y =
        (Cpp.handleMouseWheel v wheelY mouseX mouseY w h).centerY) ∧
    (∀ (s : C.CState) (v : Cpp.ViewState) (wheelY : ℤ) (mouseX mouseY w h : ℚ),
      s.zoom = v.zoom → s.center_x = v.centerX → s.center_y = v.centerY →
      s.renderWidth = w → s.renderHeight = h → wheelY < 0 →
      MIN_ZOOM ≤ v.zoom / WHEEL_ZOOM_FACTOR → v.zoom / WHEEL_ZOOM_FACTOR ≤ MAX_ZOOM →
      (C.handleMouseWheel s wheelY mouseX mouseY).zoom =
        (Cpp.handleMouseWheel v wheelY mouseX mouseY w h).zoom ∧
      (C.handleMouseWheel s wheelY mouseX mouseY).center_x =
        (Cpp.handleMouseWheel v wheelY mouseX mouseY w h).centerX ∧
      (C.handleMouseWheel s wheelY mouseX mouseY).center_y =
        (Cpp.handleMouseWheel v wheelY mouseX mouseY w h).centerY) ∧
    (∀ (s : C.CState) (v : Cpp.ViewState) (x y w h : ℚ),
      s.zoom = v.zoom → s.center_x = v.centerX → s.center_y = v.centerY →
      s.renderWidth = w → s.renderHeight = h →
      s.mouseButtonHeld = SDL_BUTTON_LEFT → s.mousePanning = false →
      s.holdZoomActive = false →
      MIN_ZOOM ≤ v.zoom * (3/2) → v.zoom * (3/2) ≤ MAX_ZOOM →
      (C.handleMouseButtonUp s SDL_BUTTON_LEFT x y).zoom =
        (Cpp.clickZoom v SDL_BUTTON_LEFT x y w h).zoom ∧
      (C.handleMouseButtonUp s SDL_BUTTON_LEFT x y).center_x =
        (Cpp.clickZoom v SDL_BUTTON_LEFT x y w h).centerX ∧
      (C.handleMouseButtonUp s SDL_BUTTON_LEFT x y).center_y =
        (Cpp.clickZoom v SDL_BUTTON_LEFT x y w h).centerY) ∧
    (∀ (s : C.CState) (v : Cpp.ViewState) (x y w h : ℚ),
      s.zoom = v.zoom → s.center_x = v.centerX → s.center_y = v.centerY →
      s.renderWidth = w → s.renderHeight = h →
      s.mouseButtonHeld = SDL_BUTTON_RIGHT → s.mousePanning = false →
      s.holdZoomActive = false →
      MIN_ZOOM ≤ v.zoom / (3/2) → v.zoom / (3/2) ≤ MAX_ZOOM →
      (C.handleMouseButtonUp s SDL_BUTTON_RIGHT x y).zoom =
        (Cpp.clickZoom v SDL_BUTTON_RIGHT x y w h).zoom ∧
      (C.handleMouseButtonUp s SDL_BUTTON_RIGHT x y).center_x =
        (Cpp.clickZoom v SDL_BUTTON_RIGHT x y w h).centerX ∧
      (C.handleMouseButtonUp s SDL_BUTTON_RIGHT x y).center_y =
        (Cpp.clickZoom v SDL_BUTTON_RIGHT x y w h).centerY) := by
  refine ⟨?_, ?_, ?_, ?_⟩
  · intro s v wheelY mouseX mouseY w h hz hcx hcy hw hh hwpos hlo hhi
    have hcl : stdClampQ (v.zoom * WHEEL_ZOOM_FACTOR) MIN_ZOOM MAX_ZOOM =
        v.zoom * WHEEL_ZOOM_FACTOR := stdClampQ_eq_self _ _ _ hlo hhi
    simp only [C.handleMouseWheel, Cpp.handleMouseWheel, Cpp.zoomTowardPoint,
      Cpp.clampZoom, Cpp.screenToWorld, Cpp.getScale, if_pos hwpos,
      hz, hcx, hcy, hw, hh]
    rw [hcl]
    refine ⟨?_, ?_, ?_⟩ <;> first | rfl | trivial
  · intro s v wheelY mouseX mouseY w h hz hcx hcy hw hh hwneg hlo hhi
    have hd : v.zoom * (1 / WHEEL_ZOOM_FACTOR) = v.zoom / WHEEL_ZOOM_FACTOR := by
      ring
    have hcl : stdClampQ (v.zoom * (1 / WHEEL_ZOOM_FACTOR)) MIN_ZOOM MAX_ZOOM =
        v.zoom / WHEEL_ZOOM_FACTOR := by
      rw [hd]
      exact stdClampQ_eq_self _ _ _ hlo hhi
    have hnpos : ¬(wheelY > 0) := by omega
    simp only [C.handleMouseWheel, Cpp.handleMouseWheel, Cpp.zoomTowardPoint,
      Cpp.clampZoom, Cpp.screenToWorld, Cpp.getScale, if_neg hnpos, if_pos hwneg,
      hz, hcx, hcy, hw, hh]
    rw [hcl]
    refine ⟨?_, ?_, ?_⟩ <;> first | rfl | trivial
  · intro s v x y w h hz hcx hcy hw hh hb hpan hhold hlo hhi
    have hq : CLICK_ZOOM_FACTOR = (3/2 : ℚ) := by norm_num [CLICK_ZOOM_FACTOR]
    have hcl : stdClampQ (v.zoom * CLICK_ZOOM_FACTOR) MIN_ZOOM MAX_ZOOM =
        v.zoom * (3/2) := by
      rw [hq]
      exact stdClampQ_eq_self _ _ _ hlo hhi
    have e1 : (SDL_BUTTON_LEFT = s.mouseButtonHeld) = True := by simp [hb]
    have e2 : (SDL_BUTTON_LEFT = SDL_BUTTON_MIDDLE) = False := by
      simp [SDL_BUTTON_LEFT, SDL_BUTTON_MIDDLE]
    have e3 : (s.mousePanning = true) = False := by simp [hpan]
    have e4 : (s.holdZoomActive = false) = True := by simp [hhold]
    have e5 : (SDL_BUTTON_LEFT = SDL_BUTTON_LEFT) = True := by simp
    simp only [C.handleMouseButtonUp, Cpp.clickZoom, Cpp.zoomTowardPoint,
      Cpp.clampZoom, Cpp.screenToWorld, Cpp.getScale, e1, e2, e3, e4, e5,
      if_true, if_false, hz, hcx, hcy, hw, hh]
    rw [hcl]
    refine ⟨?_, ?_, ?_⟩ <;> first | rfl | trivial
  · intro s v x y w h hz hcx hcy hw hh hb hpan hhold hlo hhi
    have hd : v.zoom * (1 / CLICK_ZOOM_FACTOR) = v.zoom / (3/2) := by
      rw [show CLICK_ZOOM_FACTOR = (3/2 : ℚ) from by norm_num [CLICK_ZOOM_FACTOR]]
      ring
    have hcl : stdClampQ (v.zoom * (1 / CLICK_ZOOM_FACTOR)) MIN_ZOOM MAX_ZOOM =
        v.zoom / (3/2) := by
      rw [hd]
      exact stdClampQ_eq_self _ _ _ hlo hhi
    have e1 : (SDL_BUTTON_RIGHT = s.mouseButtonHeld) = True := by simp [hb]
    have e2 : (SDL_BUTTON_RIGHT = SDL_BUTTON_MIDDLE) = False := by
      simp [SDL_BUTTON_RIGHT, SDL_BUTTON_MIDDLE]
    have e3 : (s.mousePanning = true) = False := by simp [hpan]
    have e4 : (s.holdZoomActive = false) = True := by simp [hhold]
    have e5 : (SDL_BUTTON_RIGHT = SDL_BUTTON_LEFT) = False := by
      simp [SDL_BUTTON_RIGHT, SDL_BUTTON_LEFT]
    have e6 : (SDL_BUTTON_RIGHT = SDL_BUTTON_RIGHT) = True := by simp
    simp only [C.handleMouseButtonUp, Cpp.clickZoom, Cpp.zoomTowardPoint,
      Cpp.clampZoom, Cpp.screenToWorld, Cpp.getScale, e1, e2, e3, e4, e5, e6,
      if_true, if_false, hz, hcx, hcy, hw, hh]
    rw [hcl]
    refine ⟨?_, ?_, ?_⟩ <;> first | rfl | trivial

/-- C3 witness: the amended theorem instantiated at the default viewport,
a wheel-up event at the centre pixel and a left click. -/
theorem claim_C3_witness :
    ((C.handleMouseWheel C.init 1 400 300).zoom =
      (Cpp.handleMouseWheel Cpp.ViewState.default 1 400 300 800 600).zoom ∧
     (C.handleMouseWheel C.init 1 400 300).center_x =
      (Cpp.handleMouseWheel Cpp.ViewState.default 1 400 300 800 600).centerX ∧
     (C.handleMouseWheel C.init 1 400 300).center_y =
      (Cpp.handleMouseWheel Cpp.ViewState.default 1 400 300 800 600).centerY) ∧
    ((C.handleMouseButtonUp { C.init with mouseButtonHeld := SDL_BUTTON_LEFT }
        SDL_BUTTON_LEFT 400 300).zoom =
      (Cpp.clickZoom Cpp.ViewState.default SDL_BUTTON_LEFT 400 300 800 600).zoom) := by
  constructor
  · exact claim_C3_amended.1 C.init Cpp.ViewState.default 1 400 300 800 600
      rfl rfl rfl rfl rfl (by decide)
      (by norm_num [MIN_ZOOM, WHEEL_ZOOM_FACTOR, Cpp.ViewState.default])
      (by norm_num [MAX_ZOOM, WHEEL_ZOOM_FACTOR, Cpp.ViewState.default])
  · exact (claim_C3_amended.2.2.1 { C.init with mouseButtonHeld := SDL_BUTTON_LEFT }
      Cpp.ViewState.default 400 300 800 600 rfl rfl rfl rfl rfl rfl rfl rfl
      (by norm_num [MIN_ZOOM, Cpp.ViewState.default])
      (by norm_num [MAX_ZOOM, Cpp.ViewState.default])).1

/-- C3 counterexample: started from the same viewport at zoom MIN_ZOOM and
fed the same wheel-down event, the C implementation divides the zoom by
1.15 with no bound check (yielding 2/23) while the C++ implementation
clamps it back to MIN_ZOOM, so the two viewport states differ after the
step. -/
theorem claim_C3_counterexample :
    (C.handleMouseWheel { C.init with zoom := MIN_ZOOM } (-1) 400 300).zoom ≠
      (Cpp.handleMouseWheel { Cpp.ViewState.default with zoom := MIN_ZOOM }
        (-1) 400 300 800 600).zoom := by
  norm_num [C.handleMouseWheel, Cpp.handleMouseWheel, Cpp.zoomTowardPoint,
    Cpp.clampZoom, Cpp.screenToWorld, Cpp.getScale, stdClampQ, C.init,
    Cpp.ViewState.default, MIN_ZOOM, MAX_ZOOM, WHEEL_ZOOM_FACTOR]

/-- C6 (amended): while one mouse button is held, a button-down event for a
different button is not ignored: it unconditionally replaces the tracked
button and reinitialises the pointer-session state, exactly as a first
press would (middle button: panning starts immediately from the new
position; left/right: new press origin and press time, hold-zoom and
panning flags cleared).  Both sources' handleMouseButtonDown have no guard
on an already-held button. -/
theorem claim_C6_amended (s : C.CState) (b : ℕ) (x y : ℚ) (now : ℕ)
    (hb : b = SDL_BUTTON_LEFT ∨ b = SDL_BUTTON_RIGHT) :
    ((C.handleMouseButtonDown s b x y now).mouseButtonHeld = b ∧
     (C.handleMouseButtonDown s b x y now).mouseHoldX = x ∧
     (C.handleMouseButtonDown s b x y now).mouseHoldY = y ∧
     (C.handleMouseButtonDown s b x y now).mouseHoldStartTime = now ∧
     (C.handleMouseButtonDown s b x y now).holdZoomActive = false ∧
     (C.handleMouseButtonDown s b x y now).mousePanning = false) ∧
    ((C.handleMouseButtonDown s SDL_BUTTON_MIDDLE x y now).mouseButtonHeld =
        SDL_BUTTON_MIDDLE ∧
     (C.handleMouseButtonDown s SDL_BUTTON_MIDDLE x y now).mousePanning = true ∧
     (C.handleMouseButtonDown s SDL_BUTTON_MIDDLE x y now).mousePanLastX = x ∧
     (C.handleMouseButtonDown s SDL_BUTTON_MIDDLE x y now).mousePanLastY = y) := by
  constructor
  · rcases hb with hb | hb <;> subst hb <;>
      simp [C.handleMouseButtonDown, SDL_BUTTON_LEFT, SDL_BUTTON_MIDDLE,
        SDL_BUTTON_RIGHT]
  · simp [C.handleMouseButtonDown, SDL_BUTTON_MIDDLE]

/-- C6 witness: the amended theorem instantiated at a state already holding
the left button and a right-button press. -/
theorem claim_C6_witness :
    ((C.handleMouseButtonDown { C.init with mouseButtonHeld := SDL_BUTTON_LEFT }
        SDL_BUTTON_RIGHT 5 6 50).mouseButtonHeld = SDL_BUTTON_RIGHT ∧
     (C.handleMouseButtonDown { C.init with mouseButtonHeld := SDL_BUTTON_LEFT }
        SDL_BUTTON_RIGHT 5 6 50).mouseHoldX = 5 ∧
     (C.handleMouseButtonDown { C.init with mouseButtonHeld := SDL_BUTTON_LEFT }
        SDL_BUTTON_RIGHT 5 6 50).mouseHoldY = 6 ∧
     (C.handleMouseButtonDown { C.init with mouseButtonHeld := SDL_BUTTON_LEFT }
        SDL_BUTTON_RIGHT 5 6 50).mouseHoldStartTime = 50 ∧
     (C.handleMouseButtonDown { C.init with mouseButtonHeld := SDL_BUTTON_LEFT }
        SDL_BUTTON_RIGHT 5 6 50).holdZoomActive = false ∧
     (C.handleMouseButtonDown { C.init with mouseButtonHeld := SDL_BUTTON_LEFT }
        SDL_BUTTON_RIGHT 5 6 50).mousePanning = false) ∧
    ((C.handleMouseButtonDown { C.init with mouseButtonHeld := SDL_BUTTON_LEFT }
        SDL_BUTTON_MIDDLE 5 6 50).mouseButtonHeld = SDL_BUTTON_MIDDLE ∧
     (C.handleMouseButtonDown { C.init with mouseButtonHeld := SDL_BUTTON_LEFT }
        SDL_BUTTON_MIDDLE 5 6 50).mousePanning = true ∧
     (C.handleMouseButtonDown { C.init with mouseButtonHeld := SDL_BUTTON_LEFT }
        SDL_BUTTON_MIDDLE 5 6 50).mousePanLastX = 5 ∧
     (C.handleMouseButtonDown { C.init with mouseButtonHeld := SDL_BUTTON_LEFT }
        SDL_BUTTON_MIDDLE 5 6 50).mousePanLastY = 6) :=
  claim_C6_amended { C.init with mouseButtonHeld := SDL_BUTTON_LEFT } SDL_BUTTON_RIGHT
    5 6 50 (Or.inr rfl)

/-- C6 counterexample: with the left button held (state Pressed), a
button-down for the right button changes the tracked button from left to
right, refuting that a second press never changes the tracked button. -/
theorem claim_C6_counterexample :
    ({ C.init with mouseButtonHeld := SDL_BUTTON_LEFT } : C.CState).mouseButtonHeld =
      SDL_BUTTON_LEFT ∧
    (C.handleMouseButtonDown { C.init with mouseButtonHeld := SDL_BUTTON_LEFT }
        SDL_BUTTON_RIGHT 5 6 50).mouseButtonHeld = SDL_BUTTON_RIGHT ∧
    SDL_BUTTON_RIGHT ≠ SDL_BUTTON_LEFT := by
  refine ⟨rfl, ?_, by decide⟩
  simp [C.handleMouseButtonDown, SDL_BUTTON_LEFT, SDL_BUTTON_MIDDLE, SDL_BUTTON_RIGHT]

/-- C7 witness: the theorem instantiated at iterCount 1, maxIter 2. -/
theorem claim_C7_witness :
    C.getColor 1 2 = colorOfSpec 1 2 ∧
    Cpp.getColor 1 2 = colorOfSpec 1 2 ∧
    C.getColor 2 2 = 0xFF000000 :=
  claim_C7_color 1 2 (by decide) (by decide)

/-- C5 (amended): a qualifying single-finger tap that is not classified as
a double-tap and occurs less than TAP_DEBOUNCE_TIME after the last zoom
action leaves the viewport (zoom and centre) unchanged and updates the
stored last-tap position to this tap's position, but leaves the stored
last-tap time unchanged (the source updates the position only, with the
comment that the time is deliberately not updated). -/
theorem claim_C5_amended (s : C.CState) (id : ℤ) (ex ey : ℚ) (now : ℕ)
    (hnorm : ¬(ex > 1 ∨ ey > 1))
    (hfing : s.numFingers = 1 ∧ id = s.finger1_id)
    (htap : s.isPanning = false ∧ |ex - s.initialTapX| * s.windowWidth < 20 ∧
      |ey - s.initialTapY| * s.windowHeight < 20)
    (hnotdouble : ¬(u32sub now s.lastTapTime < DOUBLE_TAP_TIME ∧
      (ex * s.renderWidth - s.lastTapX) ^ 2 + (ey * s.renderHeight - s.lastTapY) ^ 2 <
        DOUBLE_TAP_DIST ^ 2))
    (hdeb : u32sub now s.lastZoomTime < TAP_DEBOUNCE_TIME) :
    (C.handleFingerUp s id ex ey now).zoom = s.zoom ∧
    (C.handleFingerUp s id ex ey now).center_x = s.center_x ∧
    (C.handleFingerUp s id ex ey now).center_y = s.center_y ∧
    (C.handleFingerUp s id ex ey now).lastTapX = ex * s.renderWidth ∧
    (C.handleFingerUp s id ex ey now).lastTapY = ey * s.renderHeight ∧
    (C.handleFingerUp s id ex ey now).lastTapTime = s.lastTapTime := by
  simp only [C.handleFingerUp, if_neg hnorm, if_pos hfing, if_pos htap,
    if_neg hnotdouble, if_pos hdeb]
  refine ⟨?_, ?_, ?_, ?_, ?_, ?_⟩ <;> first | rfl | trivial

/-- C5 witness: the amended theorem instantiated at a debounced tap at
normalized position half-half (render pixel 400 x 300), 300 milliseconds
after the last zoom and 900 milliseconds after the previous tap. -/
theorem claim_C5_witness :
    (C.handleFingerUp { C.init with numFingers := 1, finger1_id := 7, lastTapTime := 100, lastZoomTime := 700, initialTapX := 1/2, initialTapY := 1/2 } 7 (1/2) (1/2) 1000).zoom = ({ C.init with numFingers := 1, finger1_id := 7, lastTapTime := 100, lastZoomTime := 700, initialTapX := 1/2, initialTapY := 1/2 } : C.CState).zoom ∧
    (C.handleFingerUp { C.init with numFingers := 1, finger1_id := 7, lastTapTime := 100, lastZoomTime := 700, initialTapX := 1/2, initialTapY := 1/2 } 7 (1/2) (1/2) 1000).center_x = ({ C.init with numFingers := 1, finger1_id := 7, lastTapTime := 100, lastZoomTime := 700, initialTapX := 1/2, initialTapY := 1/2 } : C.CState).center_x ∧
    (C.handleFingerUp { C.init with numFingers := 1, finger1_id := 7, lastTapTime := 100, lastZoomTime := 700, initialTapX := 1/2, initialTapY := 1/2 } 7 (1/2) (1/2) 1000).center_y = ({ C.init with numFingers := 1, finger1_id := 7, lastTapTime := 100, lastZoomTime := 700, initialTapX := 1/2, initialTapY := 1/2 } : C.CState).center_y ∧
    (C.handleFingerUp { C.init with numFingers := 1, finger1_id := 7, lastTapTime := 100, lastZoomTime := 700, initialTapX := 1/2, initialTapY := 1/2 } 7 (1/2) (1/2) 1000).lastTapX = (1/2) * ({ C.init with numFingers := 1, finger1_id := 7, lastTapTime := 100, lastZoomTime := 700, initialTapX := 1/2, initialTapY := 1/2 } : C.CState).renderWidth ∧
    (C.handleFingerUp { C.init with numFingers := 1, finger1_id := 7, lastTapTime := 100, lastZoomTime := 700, initialTapX := 1/2, initialTapY := 1/2 } 7 (1/2) (1/2) 1000).lastTapY = (1/2) * ({ C.init with numFingers := 1, finger1_id := 7, lastTapTime := 100, lastZoomTime := 700, initialTapX := 1/2, initialTapY := 1/2 } : C.CState).renderHeight ∧
    (C.handleFingerUp { C.init with numFingers := 1, finger1_id := 7, lastTapTime := 100, lastZoomTime := 700, initialTapX := 1/2, initialTapY := 1/2 } 7 (1/2) (1/2) 1000).lastTapTime = ({ C.init with numFingers := 1, finger1_id := 7, lastTapTime := 100, lastZoomTime := 700, initialTapX := 1/2, initialTapY := 1/2 } : C.CState).lastTapTime :=
  claim_C5_amended
    { C.init with numFingers := 1, finger1_id := 7, lastTapTime := 100, lastZoomTime := 700, initialTapX := 1/2, initialTapY := 1/2 }
    7 (1/2) (1/2) 1000
    (by norm_num)
    ⟨rfl, rfl⟩
    (by norm_num [C.init])
    (by norm_num [C.init, u32sub, DOUBLE_TAP_TIME])
    (by norm_num [C.init, u32sub, TAP_DEBOUNCE_TIME])

/-- C5 counterexample: at the same debounced tap, the stored last-tap time
is not updated to this tap's time: it stays 100 while the tap's time is
1000, refuting the claim that both the position and the time are updated. -/
theorem claim_C5_counterexample :
    (let sc : C.CState := { C.init with numFingers := 1, finger1_id := 7, lastTapTime := 100, lastZoomTime := 700, initialTapX := 1/2, initialTapY := 1/2 };
     u32sub 1000 sc.lastZoomTime < TAP_DEBOUNCE_TIME ∧
     ¬(u32sub 1000 sc.lastTapTime < DOUBLE_TAP_TIME) ∧
     (C.handleFingerUp sc 7 (1/2) (1/2) 1000).lastTapX = 400 ∧
     (C.handleFingerUp sc 7 (1/2) (1/2) 1000).lastTapTime = 100 ∧
     (100 : ℕ) ≠ 1000) := by
  norm_num [C.handleFingerUp, C.init, u32sub, DOUBLE_TAP_TIME, DOUBLE_TAP_DIST,
    TAP_DEBOUNCE_TIME]

/-- C9: because the stored last-tap time initializes to 0 and the stored
last-tap position to the origin, the very first qualifying tap of a session
(finger down then up at the same in-range position, with any viewport) is
classified as a double-tap and resets the viewport to zoom 1, centre
(-0.5, 0) whenever its monotonic time is below DOUBLE_TAP_TIME and its
render-pixel position lies within DOUBLE_TAP_DIST of the top-left corner,
even though no prior tap ever occurred. -/
theorem claim_C9_first_tap (z cx cy : ℚ) (id : ℤ) (ex ey : ℚ) (t0 now : ℕ)
    (hnow : now < DOUBLE_TAP_TIME)
    (hnorm : ¬(ex > 1 ∨ ey > 1))
    (hdist : (ex * 800) ^ 2 + (ey * 600) ^ 2 < DOUBLE_TAP_DIST ^ 2) :
    (C.handleFingerUp
        (C.handleFingerDown { C.init with zoom := z, center_x := cx, center_y := cy }
          id ex ey t0) id ex ey now).zoom = 1 ∧
    (C.handleFingerUp
        (C.handleFingerDown { C.init with zoom := z, center_x := cx, center_y := cy }
          id ex ey t0) id ex ey now).center_x = -1/2 ∧
    (C.handleFingerUp
        (C.handleFingerDown { C.init with zoom := z, center_x := cx, center_y := cy }
          id ex ey t0) id ex ey now).center_y = 0 := by
  have hu : u32sub now 0 = now := by
    unfold u32sub
    have h32 : now < 2 ^ 32 := lt_trans hnow (by norm_num [DOUBLE_TAP_TIME])
    omega
  norm_num [C.handleFingerDown, C.handleFingerUp, C.init, if_neg hnorm, hu,
    hnow, hdist]

/-- C9 witness: the theorem instantiated at a zoomed-in viewport, a tap at
normalized position one tenth (render pixel 80 x 60, 100 px from the
corner) at time 300. -/
theorem claim_C9_witness :
    (C.handleFingerUp
        (C.handleFingerDown { C.init with zoom := 7, center_x := 3, center_y := 4 }
          1 (1/10) (1/10) 0) 1 (1/10) (1/10) 300).zoom = 1 ∧
    (C.handleFingerUp
        (C.handleFingerDown { C.init with zoom := 7, center_x := 3, center_y := 4 }
          1 (1/10) (1/10) 0) 1 (1/10) (1/10) 300).center_x = -1/2 ∧
    (C.handleFingerUp
        (C.handleFingerDown { C.init with zoom := 7, center_x := 3, center_y := 4 }
          1 (1/10) (1/10) 0) 1 (1/10) (1/10) 300).center_y = 0 :=
  claim_C9_first_tap 7 3 4 1 (1/10) (1/10) 0 300
    (by norm_num [DOUBLE_TAP_TIME])
    (by norm_num)
    (by norm_num [DOUBLE_TAP_DIST])

/-- C10 (amended): while a pan is in progress, a mouse motion event mutates
only centerX, centerY, the stored last-pan position and the dirty flag
(zoom, maxIterations, the pinch baseline, the tracked button and the
hold-zoom state are unchanged and the centre moves by minus delta times
scale); a single-finger touch motion likewise leaves zoom, maxIterations
and the pinch baseline (initial distance, initial zoom, pinch-centre
anchor) unchanged, though it additionally refreshes the mirrored finger
position and, when the finger lies more than 5 render-pixels from the tap
origin, rewrites the hold-zoom arming fields (see the counterexample). -/
theorem claim_C10_amended :
    (∀ (s : C.CState) (x y : ℚ), s.mouseButtonHeld ≠ 0 → s.mousePanning = true →
      (C.handleMouseMotion s x y).zoom = s.zoom ∧
      (C.handleMouseMotion s x y).max_iter = s.max_iter ∧
      (C.handleMouseMotion s x y).initialPinchDistSq = s.initialPinchDistSq ∧
      (C.handleMouseMotion s x y).initialZoom = s.initialZoom ∧
      (C.handleMouseMotion s x y).pinchCenterX = s.pinchCenterX ∧
      (C.handleMouseMotion s x y).pinchCenterY = s.pinchCenterY ∧
      (C.handleMouseMotion s x y).mouseButtonHeld = s.mouseButtonHeld ∧
      (C.handleMouseMotion s x y).holdZoomActive = s.holdZoomActive ∧
      (C.handleMouseMotion s x y).center_x =
        s.center_x - (x - s.mousePanLastX) * (4 / (s.renderWidth * s.zoom)) ∧
      (C.handleMouseMotion s x y).center_y =
        s.center_y - (y - s.mousePanLastY) * (4 / (s.renderWidth * s.zoom)) ∧
      (C.handleMouseMotion s x y).mousePanLastX = x ∧
      (C.handleMouseMotion s x y).mousePanLastY = y) ∧
    (∀ (s : C.CState) (id : ℤ) (x y : ℚ), s.numFingers = 1 → s.isPanning = true →
      (C.handleFingerMotion s id x y).zoom = s.zoom ∧
      (C.handleFingerMotion s id x y).max_iter = s.max_iter ∧
      (C.handleFingerMotion s id x y).initialPinchDistSq = s.initialPinchDistSq ∧
      (C.handleFingerMotion s id x y).initialZoom = s.initialZoom ∧
      (C.handleFingerMotion s id x y).pinchCenterX = s.pinchCenterX ∧
      (C.handleFingerMotion s id x y).pinchCenterY = s.pinchCenterY) := by
  constructor
  · intro s x y hheld hpan
    have e1 : (s.mousePanning = false) = False := by simp [hpan]
    simp only [C.handleMouseMotion, if_neg hheld, e1, false_and, if_false,
      if_pos hpan]
    refine ⟨?_, ?_, ?_, ?_, ?_, ?_, ?_, ?_, ?_, ?_, ?_, ?_⟩ <;>
      first | rfl | trivial
  · intro s id x y hnf hpan
    simp only [C.handleFingerMotion]
    split_ifs <;> refine ⟨?_, ?_, ?_, ?_, ?_, ?_⟩ <;> first | rfl | trivial

/-- C10 witness: the amended theorem instantiated at a middle-button mouse
pan step and a single-finger touch pan step. -/
theorem claim_C10_witness :
    (C.handleMouseMotion { C.init with mouseButtonHeld := 2, mousePanning := true } 30 40).zoom = ({ C.init with mouseButtonHeld := 2, mousePanning := true } : C.CState).zoom ∧
    (C.handleFingerMotion { C.init with numFingers := 1, finger1_id := 1, isPanning := true } 1 (3/5) (1/2)).initialZoom = ({ C.init with numFingers := 1, finger1_id := 1, isPanning := true } : C.CState).initialZoom :=
  ⟨(claim_C10_amended.1 { C.init with mouseButtonHeld := 2, mousePanning := true }
      30 40 (by norm_num [C.init]) rfl).1,
   (claim_C10_amended.2 { C.init with numFingers := 1, finger1_id := 1, isPanning := true }
      1 (3/5) (1/2) rfl rfl).2.2.2.1⟩

/-- C10 counterexample: a motion event during a pan that is already in
progress can mutate state beyond centerX, centerY and the last-pan
position: after finger 1 down at time 1000, finger 2 down, and finger 1 up
(the two-to-one transition resumes panning with the stale hold-zoom start
time 1000), the next pan motion of the remaining finger rewrites
touchHoldStartTime from 1000 to the sentinel 4294967295. -/
theorem claim_C10_counterexample :
    (let s3 := C.handleFingerUp
        (C.handleFingerDown (C.handleFingerDown C.init 1 (1/2) (1/2) 1000)
          2 (3/5) (1/2) 1100) 1 (1/2) (1/2) 1200;
     s3.isPanning = true ∧ s3.numFingers = 1 ∧ s3.touchHoldStartTime = 1000 ∧
     (C.handleFingerMotion s3 2 (7/10) (1/2)).touchHoldStartTime = 4294967295 ∧
     (4294967295 : ℕ) ≠ 1000) := by
  norm_num [C.handleFingerDown, C.handleFingerUp, C.handleFingerMotion, C.init,
    u32sub, DOUBLE_TAP_TIME, DOUBLE_TAP_DIST, TAP_DEBOUNCE_TIME]

end SdlDraw
